import Mathlib

/-!
Verification development for the Jira MCP context server
(`app/utils.py`, `app/jira.py`, `app/main.py`).

The embedding models the three source modules:

* `extract_jira_key_from_branch` (app/utils.py): the regex search
  `re.search(r'([A-Z]{2,}-\d+)', branch_name)`.  Strings are modelled as
  lists of characters; `[A-Z]` is the ASCII range `A`..`Z`, and `\d` is,
  as for every CPython str pattern, any Unicode decimal digit — category
  Nd, embedded below as the full run table `ndDigitRanges` of Unicode
  14.0 (the table CPython 3.11 ships).  Because `-` is neither an
  uppercase letter nor a digit, the greedy match of `[A-Z]{2,}` at a given
  start position can only succeed with the maximal run of uppercase
  letters, so the backtracking regex engine degenerates to the
  deterministic scan `matchAt` below, tried at each start position from
  the left (`searchKey`), exactly as `re.search` does.

* `get_issue_details_cached` / `get_issue_details` (app/jira.py): a
  `functools.lru_cache(maxsize=100)`-memoised lookup keyed by
  `(issue_key, timestamp)` where `timestamp = int(time.time() / CACHE_TTL)`.
  The cache is modelled as an explicit association list in
  most-recently-used-first order (`CacheState.entries`); the underlying
  Jira fetch is modelled as a function `loader : Nat → FetchOutcome`
  giving the outcome of its 1st, 2nd, ... invocation, with
  `CacheState.calls` counting the invocations made so far.  A raised
  `JiraClientError` is `Except.error`; `lru_cache` stores returned values
  (including the `None` returned on a 404) and stores nothing when the
  wrapped function raises.

* the `POST /context` handler `get_context` (app/main.py): assembles zero
  or one context items from an optional branch name, swallowing
  `JiraClientError` (and any other exception) from the lookup.
-/

namespace CursorMCP

/-! ## KeyExtractor (app/utils.py) -/

/-- The character class `[A-Z]`. -/
def isUpperAZ (c : Char) : Bool := 'A' ≤ c && c ≤ 'Z'

/-- The code-point ranges of Unicode general category Nd (decimal
digits), Unicode 14.0 — the table used by CPython 3.11, whose `re`
module defines `\d` on str patterns as exactly this category. -/
def ndDigitRanges : List (Nat × Nat) :=
  [(0x30, 0x39), (0x660, 0x669), (0x6F0, 0x6F9), (0x7C0, 0x7C9), (0x966, 0x96F),
   (0x9E6, 0x9EF), (0xA66, 0xA6F), (0xAE6, 0xAEF), (0xB66, 0xB6F), (0xBE6, 0xBEF),
   (0xC66, 0xC6F), (0xCE6, 0xCEF), (0xD66, 0xD6F), (0xDE6, 0xDEF), (0xE50, 0xE59),
   (0xED0, 0xED9), (0xF20, 0xF29), (0x1040, 0x1049), (0x1090, 0x1099), (0x17E0, 0x17E9),
   (0x1810, 0x1819), (0x1946, 0x194F), (0x19D0, 0x19D9), (0x1A80, 0x1A89), (0x1A90, 0x1A99),
   (0x1B50, 0x1B59), (0x1BB0, 0x1BB9), (0x1C40, 0x1C49), (0x1C50, 0x1C59), (0xA620, 0xA629),
   (0xA8D0, 0xA8D9), (0xA900, 0xA909), (0xA9D0, 0xA9D9), (0xA9F0, 0xA9F9), (0xAA50, 0xAA59),
   (0xABF0, 0xABF9), (0xFF10, 0xFF19), (0x104A0, 0x104A9), (0x10D30, 0x10D39), (0x11066, 0x1106F),
   (0x110F0, 0x110F9), (0x11136, 0x1113F), (0x111D0, 0x111D9), (0x112F0, 0x112F9), (0x11450, 0x11459),
   (0x114D0, 0x114D9), (0x11650, 0x11659), (0x116C0, 0x116C9), (0x11730, 0x11739), (0x118E0, 0x118E9),
   (0x11950, 0x11959), (0x11C50, 0x11C59), (0x11D50, 0x11D59), (0x11DA0, 0x11DA9), (0x16A60, 0x16A69),
   (0x16AC0, 0x16AC9), (0x16B50, 0x16B59), (0x1D7CE, 0x1D7FF), (0x1E140, 0x1E149), (0x1E2F0, 0x1E2F9),
   (0x1E950, 0x1E959), (0x1FBF0, 0x1FBF9)]

/-- The character class `\d` of a CPython str pattern: any Unicode
decimal digit (general category Nd). -/
def isDigitNd (c : Char) : Bool :=
  ndDigitRanges.any (fun r => r.1 ≤ c.toNat && c.toNat ≤ r.2)

/-- The ASCII digit class `[0-9]`, as written literally in the spec's
pattern `[A-Z]{2,}-[0-9]+`.  The source's `\d` is `isDigitNd`, a strict
superset; `matchesKey09` below lets the two patterns be compared. -/
def isDigit09 (c : Char) : Bool := '0' ≤ c && c ≤ '9'

/-- Whole-string match of the spec's literal pattern `[A-Z]{2,}-[0-9]+`
(ASCII digits).  Stated from the spec's words, for comparison with the
source's `\d`-based pattern `matchesKeyNd`. -/
def matchesKey09 (k : List Char) : Bool :=
  let ups := k.takeWhile isUpperAZ
  decide (2 ≤ ups.length) &&
    match k.drop ups.length with
    | '-' :: ds => (!ds.isEmpty) && ds.all isDigit09
    | _ => false

/-- Whole-string match of the source's pattern `[A-Z]{2,}-\d+`:
`matchesKeyNd k` holds exactly when all of `k` matches it, with `\d`
read as CPython does (any Unicode decimal digit). -/
def matchesKeyNd (k : List Char) : Bool :=
  let ups := k.takeWhile isUpperAZ
  decide (2 ≤ ups.length) &&
    match k.drop ups.length with
    | '-' :: ds => (!ds.isEmpty) && ds.all isDigitNd
    | _ => false

/-- Attempt of the pattern `([A-Z]{2,}-\d+)` anchored at the start of `s`,
returning the (greedy) match.  Mirrors the regex engine: take the maximal
run of uppercase letters (at least two of them), require `-`, then take the
maximal nonempty run of digits. -/
def matchAt (s : List Char) : Option (List Char) :=
  let ups := s.takeWhile isUpperAZ
  if 2 ≤ ups.length then
    match s.drop ups.length with
    | '-' :: rest =>
      let ds := rest.takeWhile isDigitNd
      if ds.isEmpty then none else some (ups ++ '-' :: ds)
    | _ => none
  else none

/-- The search `re.search`: try `matchAt` at every start position, left
to right. -/
def searchKey : List Char → Option (List Char)
  | [] => none
  | c :: cs =>
    match matchAt (c :: cs) with
    | some m => some m
    | none => searchKey cs

/-- The extractor `extract_jira_key_from_branch` (app/utils.py): return
the first substring of the branch name matching `[A-Z]{2,}-\d+`, if any. -/
def extract_jira_key_from_branch (branch : String) : Option String :=
  (searchKey branch.toList).map String.mk

/-! ## Data model of an issue (app/jira.py) -/

/-- The optional raw fields read off a fetched `jira` issue object.
`none` models an absent/null attribute (`issue.fields.description` being
`None`, `issue.fields.assignee` being `None`, a missing `components` or
`labels` attribute, ...). -/
structure RawIssue where
  summary : String
  description : Option String
  status : String
  priority : Option String
  assigneeDisplayName : Option String
  created : String
  updated : String
  issuetype : String
  components : Option (List String)
  labels : Option (List String)
  deriving DecidableEq, Repr

/-- The dictionary built and returned by `get_issue_details_cached` on a
successful fetch. -/
structure IssueSummary where
  summary : String
  description : String
  status : String
  priority : String
  assignee : String
  created : String
  updated : String
  url : String
  issuetype : String
  components : List String
  labels : List String
  deriving DecidableEq, Repr

/-- The field extraction in the success path of `get_issue_details_cached`:
`description or "No description provided"` (Python `or`: an absent or empty
description falls back to the placeholder), `priority.name if priority else
"Not set"`, `assignee.displayName if assignee else "Unassigned"`, and
`[]` for a missing `components`/`labels` attribute. -/
def buildSummary (server : String) (issue_key : String) (iss : RawIssue) : IssueSummary where
  summary := iss.summary
  description :=
    match iss.description with
    | none => "No description provided"
    | some d => if d = "" then "No description provided" else d
  status := iss.status
  priority := iss.priority.getD "Not set"
  assignee := iss.assigneeDisplayName.getD "Unassigned"
  created := iss.created
  updated := iss.updated
  url := server ++ "/browse/" ++ issue_key
  issuetype := iss.issuetype
  components := iss.components.getD []
  labels := iss.labels.getD []

/-- Outcome of one invocation of the underlying Jira fetch
(`get_jira_client()` + `jira.issue(issue_key)` + field extraction):
a fetched issue, a `JIRAError` with `status_code == 404`, a `JIRAError`
with another status code, or any other exception. -/
inductive FetchOutcome where
  | found (iss : RawIssue)
  | notFound
  | jiraError (msg : String)
  | otherError (msg : String)
  deriving DecidableEq, Repr

/-- Whether this outcome makes `get_issue_details_cached` raise
`JiraClientError` (anything but a fetched issue or a 404). -/
def FetchOutcome.raises : FetchOutcome → Bool
  | FetchOutcome.jiraError _ => true
  | FetchOutcome.otherError _ => true
  | _ => false

/-! ## The lru_cache-based time-windowed cache (app/jira.py) -/

/-- The bound `maxsize=100` of the memoising decorator. -/
def MAXSIZE : Nat := 100

/-- Cache time-to-live `CACHE_TTL = 300` (seconds). -/
def CACHE_TTL : Nat := 300

/-- State of the memoised `get_issue_details_cached`: the `lru_cache`
table as an association list in most-recently-used-first order, mapping
`(issue_key, timestamp)` to the cached return value (`none` is the cached
`None` returned for a 404), plus the number of times the wrapped function
body has run (= invocations of the underlying fetch). -/
structure CacheState where
  entries : List ((String × Nat) × Option IssueSummary)
  calls : Nat
  deriving DecidableEq, Repr

/-- Look a key up in the cache table. -/
def cacheLookup (entries : List ((String × Nat) × Option IssueSummary))
    (k : String × Nat) : Option (Option IssueSummary) :=
  (entries.find? (fun e => decide (e.1 = k))).map (fun e => e.2)

/-- On a cache hit, `lru_cache` moves the entry to the most-recent end. -/
def cacheTouch (entries : List ((String × Nat) × Option IssueSummary))
    (k : String × Nat) : List ((String × Nat) × Option IssueSummary) :=
  match entries.find? (fun e => decide (e.1 = k)) with
  | some e => e :: entries.filter (fun e => decide (¬ e.1 = k))
  | none => entries

/-- On a cache miss, `lru_cache` stores the returned value as most recent,
evicting the least recently used entry beyond `maxsize`. -/
def cacheInsert (entries : List ((String × Nat) × Option IssueSummary))
    (k : String × Nat) (v : Option IssueSummary) :
    List ((String × Nat) × Option IssueSummary) :=
  ((k, v) :: entries).take MAXSIZE

/-- The cached lookup `get_issue_details_cached(issue_key, timestamp)` under
`@lru_cache(maxsize=100)`.  On a hit the stored value is returned without
running the body.  On a miss the body runs (one invocation of the
underlying fetch, counted in `calls`): a fetched issue yields the built
summary dictionary, a 404 yields `None`, and both are stored; any other
`JIRAError` raises `JiraClientError("JIRA API error: ...")` and any other
exception raises `JiraClientError("Unexpected error retrieving issue: ...")`,
and `lru_cache` stores nothing for a call that raises. -/
def get_issue_details_cached (loader : Nat → FetchOutcome) (server : String)
    (issue_key : String) (timestamp : Nat) (st : CacheState) :
    Except String (Option IssueSummary) × CacheState :=
  match cacheLookup st.entries (issue_key, timestamp) with
  | some v => (Except.ok v, ⟨cacheTouch st.entries (issue_key, timestamp), st.calls⟩)
  | none =>
    match loader st.calls with
    | FetchOutcome.found iss =>
      let v := some (buildSummary server issue_key iss)
      (Except.ok v, ⟨cacheInsert st.entries (issue_key, timestamp) v, st.calls + 1⟩)
    | FetchOutcome.notFound =>
      (Except.ok none, ⟨cacheInsert st.entries (issue_key, timestamp) none, st.calls + 1⟩)
    | FetchOutcome.jiraError m =>
      (Except.error ("JIRA API error: " ++ m), ⟨st.entries, st.calls + 1⟩)
    | FetchOutcome.otherError m =>
      (Except.error ("Unexpected error retrieving issue: " ++ m), ⟨st.entries, st.calls + 1⟩)

/-- The lookup `get_issue_details(issue_key)`:
`cache_timestamp = int(time.time() / CACHE_TTL)` (floor, for nonnegative
time), then delegate to the cached function.  `now` is the current time in
seconds. -/
def get_issue_details (loader : Nat → FetchOutcome) (server : String)
    (issue_key : String) (now : Nat) (st : CacheState) :
    Except String (Option IssueSummary) × CacheState :=
  get_issue_details_cached loader server issue_key (now / CACHE_TTL) st

/-! ## The POST /context handler (app/main.py) -/

/-- One context item of the response, with `metadata` as the ordered list
of (field, value) pairs of the dictionary literal in the handler. -/
structure ContextItem where
  type : String
  title : String
  content : String
  metadata : List (String × String)
  deriving DecidableEq, Repr

/-- The item appended by the handler when issue details are found. -/
def mkContextItem (jira_key : String) (d : IssueSummary) : ContextItem where
  type := "jira_issue"
  title := jira_key ++ ": " ++ d.summary
  content := d.description
  metadata :=
    [("issue_key", jira_key), ("status", d.status), ("priority", d.priority),
     ("assignee", d.assignee), ("url", d.url)]

/-- The `POST /context` handler.  `request.branch` is falsy when absent or
empty; with a branch, a key is extracted and looked up through the cache;
`JiraClientError` (and any other exception) from the lookup is caught and
logged, leaving the context empty.  The handler itself always returns
normally with a (possibly empty) list of context items. -/
def get_context (loader : Nat → FetchOutcome) (server : String) (now : Nat)
    (st : CacheState) (branch : Option String) : List ContextItem × CacheState :=
  match branch with
  | none => ([], st)
  | some b =>
    if b = "" then ([], st)
    else
      match extract_jira_key_from_branch b with
      | none => ([], st)
      | some jira_key =>
        match get_issue_details loader server jira_key now st with
        | (Except.ok (some d), st') => ([mkContextItem jira_key d], st')
        | (Except.ok none, st') => ([], st')
        | (Except.error _, st') => ([], st')

/-! ## Concrete sample data for instantiating the theorems -/

/-- A sample fetched issue with all optional fields present. -/
def issueA : RawIssue where
  summary := "Fix login"
  description := some "Users cannot log in"
  status := "Open"
  priority := some "High"
  assigneeDisplayName := some "Dana"
  created := "2024-01-01"
  updated := "2024-01-02"
  issuetype := "Bug"
  components := some ["auth"]
  labels := some ["login"]

/-- A second sample issue, distinct from `issueA`. -/
def issueB : RawIssue := { issueA with summary := "Second answer" }

/-- A sample issue with every optional field absent. -/
def issueBare : RawIssue where
  summary := "Fix login"
  description := none
  status := "Open"
  priority := none
  assigneeDisplayName := none
  created := "2024-01-01"
  updated := "2024-01-02"
  issuetype := "Bug"
  components := none
  labels := none

/-- A loader that returns a different issue on every invocation after the
first. -/
def loaderAB : Nat → FetchOutcome :=
  fun n => if n = 0 then FetchOutcome.found issueA else FetchOutcome.found issueB

/-- A loader that fails with a gateway error on its first invocation and
succeeds afterwards. -/
def loaderFail1 : Nat → FetchOutcome :=
  fun n => if n = 0 then FetchOutcome.jiraError "503" else FetchOutcome.found issueA

/-- A loader that always reports a 404. -/
def loaderNF : Nat → FetchOutcome := fun _ => FetchOutcome.notFound

/-- The cache state at process start: empty table, no fetches yet. -/
def emptyCache : CacheState := ⟨[], 0⟩

end CursorMCP
namespace CursorMCP

theorem takeWhile_append_of_neg {α : Type} (p : α → Bool) (xs : List α) (y : α) (ys : List α)
    (hx : xs.all p = true) (hy : p y = false) :
    (xs ++ y :: ys).takeWhile p = xs := by
  induction xs with
  | nil => simp [List.takeWhile_cons, hy]
  | cons a as ih =>
    simp only [List.all_cons, Bool.and_eq_true] at hx
    simp [List.takeWhile_cons, hx.1, ih hx.2]

theorem takeWhile_eq_self_of_all {α : Type} (p : α → Bool) (l : List α) (h : l.all p = true) :
    l.takeWhile p = l :=
  List.takeWhile_eq_self_iff.mpr (by simpa [List.all_eq_true] using h)

theorem matchAt_decomp (s k : List Char) (h : matchAt s = some k) :
    ∃ U rest, s = U ++ '-' :: rest ∧ U.all isUpperAZ = true ∧ 2 ≤ U.length ∧
      k = U ++ '-' :: rest.takeWhile isDigitNd ∧ rest.takeWhile isDigitNd ≠ [] := by
  unfold matchAt at h
  by_cases hlen : 2 ≤ (s.takeWhile isUpperAZ).length
  · rw [if_pos hlen] at h
    obtain ⟨t, ht⟩ := List.takeWhile_prefix (l := s) isUpperAZ
    have hdrop : s.drop (s.takeWhile isUpperAZ).length = t := by
      have hd := List.drop_left (s.takeWhile isUpperAZ) t
      rw [ht] at hd
      exact hd
    rw [hdrop] at h
    cases t with
    | nil => simp at h
    | cons c rest =>
      by_cases hc : c = '-'
      · subst hc
        simp only at h
        by_cases he : (rest.takeWhile isDigitNd).isEmpty
        · rw [if_pos he] at h; exact absurd h (by simp)
        · rw [if_neg he] at h
          refine ⟨s.takeWhile isUpperAZ, rest, by rw [ht], List.all_takeWhile, hlen, ?_, ?_⟩
          · exact (Option.some.injEq _ _).mp h |>.symm
          · simpa [List.isEmpty_iff] using he
      · exfalso
        revert h
        cases hcc : c
        simp_all
  · rw [if_neg hlen] at h; exact absurd h (by simp)

theorem matchesKeyNd_intro (U D : List Char) (hU : U.all isUpperAZ = true) (hlen : 2 ≤ U.length)
    (hD : D ≠ []) (hDd : D.all isDigitNd = true) :
    matchesKeyNd (U ++ '-' :: D) = true := by
  simp only [matchesKeyNd]
  rw [takeWhile_append_of_neg isUpperAZ U '-' D hU (by decide)]
  rw [List.drop_left]
  simp [hlen, List.isEmpty_iff, hD, hDd]

theorem matchAt_matchesKeyNd (s k : List Char) (h : matchAt s = some k) :
    matchesKeyNd k = true := by
  obtain ⟨U, rest, hs, hU, hlen, hk, hne⟩ := matchAt_decomp s k h
  rw [hk]
  exact matchesKeyNd_intro U _ hU hlen hne List.all_takeWhile

theorem matchAt_isPre (s k : List Char) (h : matchAt s = some k) : k <+: s := by
  obtain ⟨U, rest, hs, hU, hlen, hk, hne⟩ := matchAt_decomp s k h
  rw [hk, hs]
  obtain ⟨t, ht⟩ := List.takeWhile_prefix (l := rest) isDigitNd
  exact ⟨t, by rw [List.append_assoc, List.cons_append, ht]⟩

theorem matchesKeyNd_decomp (k : List Char) (hk : matchesKeyNd k = true) :
    ∃ rest, k = k.takeWhile isUpperAZ ++ '-' :: rest ∧
      2 ≤ (k.takeWhile isUpperAZ).length ∧ rest ≠ [] ∧ rest.all isDigitNd = true := by
  simp only [matchesKeyNd] at hk
  obtain ⟨t, ht⟩ := List.takeWhile_prefix (l := k) isUpperAZ
  have hdrop : k.drop (k.takeWhile isUpperAZ).length = t := by
    have hd := List.drop_left (k.takeWhile isUpperAZ) t
    rw [ht] at hd
    exact hd
  rw [hdrop] at hk
  simp only [Bool.and_eq_true, decide_eq_true_eq] at hk
  obtain ⟨hlen, hmatch⟩ := hk
  cases t with
  | nil => simp at hmatch
  | cons c rest =>
    by_cases hc : c = '-'
    · subst hc
      simp only [Bool.and_eq_true] at hmatch
      obtain ⟨hne, hall⟩ := hmatch
      have hner : rest ≠ [] := by
        intro hr
        rw [hr] at hne
        simp at hne
      exact ⟨rest, ht.symm, hlen, hner, hall⟩
    · exfalso
      revert hmatch
      cases hcc : c
      simp_all

theorem matchAt_of_pre (s k : List Char) (hk : matchesKeyNd k = true) (hp : k <+: s) :
    ∃ m, matchAt s = some m := by
  obtain ⟨rest, hkeq, hlen, hner, hall⟩ := matchesKeyNd_decomp k hk
  obtain ⟨u, hu⟩ := hp
  have hs : s = k.takeWhile isUpperAZ ++ '-' :: (rest ++ u) := by
    rw [← hu]
    conv_lhs => rw [hkeq]
    simp
  have htw : s.takeWhile isUpperAZ = k.takeWhile isUpperAZ := by
    rw [hs]
    exact takeWhile_append_of_neg isUpperAZ _ '-' _ List.all_takeWhile (by decide)
  have hdrop2 : s.drop (s.takeWhile isUpperAZ).length = '-' :: (rest ++ u) := by
    rw [htw]
    have hd := List.drop_left (k.takeWhile isUpperAZ) ('-' :: (rest ++ u))
    rw [← hs] at hd
    exact hd
  simp only [matchAt]
  rw [hdrop2, htw, if_pos hlen]
  simp only
  cases hrr : rest with
  | nil => exact absurd hrr hner
  | cons d ds =>
    have hd : isDigitNd d = true := by
      rw [hrr] at hall
      simp only [List.all_cons, Bool.and_eq_true] at hall
      exact hall.1
    rw [List.cons_append, List.takeWhile_cons_of_pos hd]
    simp

theorem matchAt_self (k : List Char) (hk : matchesKeyNd k = true) : matchAt k = some k := by
  obtain ⟨rest, hkeq, hlen, hner, hall⟩ := matchesKeyNd_decomp k hk
  have hdrop : k.drop (k.takeWhile isUpperAZ).length = '-' :: rest := by
    have hd := List.drop_left (k.takeWhile isUpperAZ) ('-' :: rest)
    rw [← hkeq] at hd
    exact hd
  simp only [matchAt]
  rw [hdrop, if_pos hlen]
  simp only
  rw [takeWhile_eq_self_of_all isDigitNd rest hall]
  have hemp : rest.isEmpty = false := by
    cases rest with
    | nil => exact absurd rfl hner
    | cons d ds => rfl
  rw [hemp]
  simpa using hkeq.symm

end CursorMCP
namespace CursorMCP

theorem searchKey_some_decomp (s k : List Char) (h : searchKey s = some k) :
    ∃ i, matchAt (s.drop i) = some k ∧ ∀ j, j < i → matchAt (s.drop j) = none := by
  induction s with
  | nil => simp [searchKey] at h
  | cons c cs ih =>
    simp only [searchKey] at h
    cases hm : matchAt (c :: cs) with
    | some m =>
      rw [hm] at h
      exact ⟨0, by simpa using hm.trans h, fun j hj => absurd hj (Nat.not_lt_zero j)⟩
    | none =>
      rw [hm] at h
      obtain ⟨i, h1, h2⟩ := ih h
      refine ⟨i + 1, by simpa [List.drop_succ_cons] using h1, ?_⟩
      intro j hj
      cases j with
      | zero => simpa using hm
      | succ j2 =>
        rw [List.drop_succ_cons]
        exact h2 j2 (by omega)

theorem searchKey_none_matchAt (s : List Char) (h : searchKey s = none) (i : Nat) :
    matchAt (s.drop i) = none := by
  induction s generalizing i with
  | nil => cases i <;> rfl
  | cons c cs ih =>
    simp only [searchKey] at h
    cases hm : matchAt (c :: cs) with
    | some m => rw [hm] at h; exact absurd h (by simp)
    | none =>
      rw [hm] at h
      cases i with
      | zero => simpa using hm
      | succ j =>
        rw [List.drop_succ_cons]
        exact ih h j

theorem searchKey_of_matchAt_self (l : List Char) (h : matchAt l = some l) (hne : l ≠ []) :
    searchKey l = some l := by
  cases l with
  | nil => exact absurd rfl hne
  | cons c cs =>
    simp only [searchKey]
    rw [h]

end CursorMCP
namespace CursorMCP

theorem extract_eq_some (b k : String) :
    extract_jira_key_from_branch b = some k ↔ searchKey b.toList = some k.toList := by
  unfold extract_jira_key_from_branch
  cases hs : searchKey b.toList with
  | none => simp
  | some kl =>
    simp only [Option.map_some']
    constructor
    · intro h
      have hk : String.mk kl = k := (Option.some.injEq _ _).mp h
      rw [← hk]
      rfl
    · intro h
      have hk : kl = k.toList := (Option.some.injEq _ _).mp h
      rw [hk]
      rfl

theorem extract_eq_none (b : String) :
    extract_jira_key_from_branch b = none ↔ searchKey b.toList = none := by
  unfold extract_jira_key_from_branch
  cases searchKey b.toList <;> simp

end CursorMCP
namespace CursorMCP

theorem cacheLookup_insert_self (entries : List ((String × Nat) × Option IssueSummary))
    (k : String × Nat) (v : Option IssueSummary) :
    cacheLookup (cacheInsert entries k v) k = some v := by
  have h100 : MAXSIZE = 99 + 1 := rfl
  simp [cacheLookup, cacheInsert, h100, List.take_succ_cons, List.find?_cons]

theorem cacheLookup_insert_of_ne (entries : List ((String × Nat) × Option IssueSummary))
    (k k2 : String × Nat) (v : Option IssueSummary) (hne : k2 ≠ k)
    (h : cacheLookup entries k2 = none) :
    cacheLookup (cacheInsert entries k v) k2 = none := by
  simp only [cacheLookup, cacheInsert, Option.map_eq_none'] at *
  rw [List.find?_eq_none] at *
  intro x hx
  rcases List.mem_cons.mp (List.take_subset _ _ hx) with hx1 | hx2
  · subst hx1
    simp [Ne.symm hne]
  · exact h x hx2

end CursorMCP
namespace CursorMCP

/-- C1: within one TTL window, two consecutive lookups for the same key
observe only the first load's result: starting from a state with no entry
for `(issue_key, w)` and a loader whose next invocation does not raise,
both calls return the same `Except.ok` value — whatever later loader
invocations would return — and the loader runs exactly once across the
two calls.  The window is fixed by requiring the two call times to fall
in the same TTL window. -/
theorem cache_idempotent_within_window (loader : Nat → FetchOutcome) (server issue_key : String)
    (now1 now2 : Nat) (st : CacheState)
    (hw : now1 / CACHE_TTL = now2 / CACHE_TTL)
    (hmiss : cacheLookup st.entries (issue_key, now1 / CACHE_TTL) = none)
    (hok : (loader st.calls).raises = false) :
    ∃ v, (get_issue_details loader server issue_key now1 st).1 = Except.ok v ∧
      (get_issue_details loader server issue_key now2
        (get_issue_details loader server issue_key now1 st).2).1 = Except.ok v ∧
      (get_issue_details loader server issue_key now2
        (get_issue_details loader server issue_key now1 st).2).2.calls = st.calls + 1 := by
  simp only [get_issue_details, ← hw]
  cases hl : loader st.calls with
  | found iss =>
    refine ⟨some (buildSummary server issue_key iss), ?_, ?_, ?_⟩ <;>
      simp [get_issue_details_cached, hmiss, hl, cacheLookup_insert_self]
  | notFound =>
    refine ⟨none, ?_, ?_, ?_⟩ <;>
      simp [get_issue_details_cached, hmiss, hl, cacheLookup_insert_self]
  | jiraError m =>
    rw [hl] at hok
    exact absurd hok (by simp [FetchOutcome.raises])
  | otherError m =>
    rw [hl] at hok
    exact absurd hok (by simp [FetchOutcome.raises])

/-- C1 witness: a concrete two-call run on an empty cache, with a loader
that would return a different issue on its second invocation; both calls
happen at times 10 and 20, in the same TTL window. -/
theorem cache_idempotent_within_window_witness :
    (10 : Nat) / CACHE_TTL = 20 / CACHE_TTL ∧
    cacheLookup emptyCache.entries ("PROJ-77", 10 / CACHE_TTL) = none ∧
    (loaderAB emptyCache.calls).raises = false ∧
    (∃ v, (get_issue_details loaderAB "https://jira" "PROJ-77" 10 emptyCache).1 = Except.ok v ∧
      (get_issue_details loaderAB "https://jira" "PROJ-77" 20
        (get_issue_details loaderAB "https://jira" "PROJ-77" 10 emptyCache).2).1 = Except.ok v ∧
      (get_issue_details loaderAB "https://jira" "PROJ-77" 20
        (get_issue_details loaderAB "https://jira" "PROJ-77" 10 emptyCache).2).2.calls
        = emptyCache.calls + 1) :=
  ⟨rfl, rfl, rfl,
    cache_idempotent_within_window loaderAB "https://jira" "PROJ-77" 10 20 emptyCache rfl rfl rfl⟩

/-- C2: a gateway failure (`JiraClientError`) propagates to the caller
and is not cached: the first call returns the error leaving the cache
entries unchanged, and a second call for the same `(key, window)` invokes
the loader again (the invocation count reaches `st.calls + 2`). -/
theorem gateway_error_not_cached (loader : Nat → FetchOutcome) (server issue_key : String)
    (w : Nat) (st : CacheState) (m : String)
    (hmiss : cacheLookup st.entries (issue_key, w) = none)
    (herr : loader st.calls = FetchOutcome.jiraError m) :
    (get_issue_details_cached loader server issue_key w st).1
        = Except.error ("JIRA API error: " ++ m) ∧
    (get_issue_details_cached loader server issue_key w st).2.entries = st.entries ∧
    (get_issue_details_cached loader server issue_key w st).2.calls = st.calls + 1 ∧
    (get_issue_details_cached loader server issue_key w
      (get_issue_details_cached loader server issue_key w st).2).2.calls = st.calls + 2 := by
  refine ⟨?_, ?_, ?_, ?_⟩
  · simp [get_issue_details_cached, hmiss, herr]
  · simp [get_issue_details_cached, hmiss, herr]
  · simp [get_issue_details_cached, hmiss, herr]
  · cases hl2 : loader (st.calls + 1) <;>
      simp [get_issue_details_cached, hmiss, herr, hl2]

/-- C2 witness: a concrete run on an empty cache with a loader that fails
on its first invocation. -/
theorem gateway_error_not_cached_witness :
    cacheLookup emptyCache.entries ("PROJ-77", 0) = none ∧
    loaderFail1 emptyCache.calls = FetchOutcome.jiraError "503" ∧
    ((get_issue_details_cached loaderFail1 "https://jira" "PROJ-77" 0 emptyCache).1
        = Except.error ("JIRA API error: " ++ "503") ∧
      (get_issue_details_cached loaderFail1 "https://jira" "PROJ-77" 0 emptyCache).2.entries
        = emptyCache.entries ∧
      (get_issue_details_cached loaderFail1 "https://jira" "PROJ-77" 0 emptyCache).2.calls
        = emptyCache.calls + 1 ∧
      (get_issue_details_cached loaderFail1 "https://jira" "PROJ-77" 0
        (get_issue_details_cached loaderFail1 "https://jira" "PROJ-77" 0 emptyCache).2).2.calls
        = emptyCache.calls + 2) :=
  ⟨rfl, rfl, gateway_error_not_cached loaderFail1 "https://jira" "PROJ-77" 0 emptyCache "503" rfl rfl⟩

/-- C3: a 404 (`NotFound`, returned as `None`) is cached for the window:
if the first lookup's load reports not-found, the first call returns
`Except.ok none`, and a second call for the same `(key, window)` again
returns `Except.ok none` without invoking the loader (the invocation
count stays at `st.calls + 1`). -/
theorem notfound_cached_within_window (loader : Nat → FetchOutcome) (server issue_key : String)
    (w : Nat) (st : CacheState)
    (hmiss : cacheLookup st.entries (issue_key, w) = none)
    (hnf : loader st.calls = FetchOutcome.notFound) :
    (get_issue_details_cached loader server issue_key w st).1 = Except.ok none ∧
    (get_issue_details_cached loader server issue_key w
      (get_issue_details_cached loader server issue_key w st).2).1 = Except.ok none ∧
    (get_issue_details_cached loader server issue_key w
      (get_issue_details_cached loader server issue_key w st).2).2.calls = st.calls + 1 := by
  refine ⟨?_, ?_, ?_⟩ <;>
    simp [get_issue_details_cached, hmiss, hnf, cacheLookup_insert_self]

/-- C3 witness: a concrete run on an empty cache with a loader reporting
a 404. -/
theorem notfound_cached_within_window_witness :
    cacheLookup emptyCache.entries ("XYZ-1", 0) = none ∧
    loaderNF emptyCache.calls = FetchOutcome.notFound ∧
    ((get_issue_details_cached loaderNF "https://jira" "XYZ-1" 0 emptyCache).1 = Except.ok none ∧
      (get_issue_details_cached loaderNF "https://jira" "XYZ-1" 0
        (get_issue_details_cached loaderNF "https://jira" "XYZ-1" 0 emptyCache).2).1
        = Except.ok none ∧
      (get_issue_details_cached loaderNF "https://jira" "XYZ-1" 0
        (get_issue_details_cached loaderNF "https://jira" "XYZ-1" 0 emptyCache).2).2.calls
        = emptyCache.calls + 1) :=
  ⟨rfl, rfl, notfound_cached_within_window loaderNF "https://jira" "XYZ-1" 0 emptyCache rfl rfl⟩

/-- C4: `get_issue_details` computes the window index at call time as
`⌊now / CACHE_TTL⌋` with `CACHE_TTL = 300`, and a lookup in a different
window always invokes the loader again for the same key: two lookups
whose windows differ, from a state with an entry for neither, run the
loader twice. -/
theorem window_refresh_invokes_loader (loader : Nat → FetchOutcome) (server issue_key : String)
    (now1 now2 : Nat) (st : CacheState)
    (hmiss1 : cacheLookup st.entries (issue_key, now1 / CACHE_TTL) = none)
    (hmiss2 : cacheLookup st.entries (issue_key, now2 / CACHE_TTL) = none)
    (hdiff : now1 / CACHE_TTL ≠ now2 / CACHE_TTL) :
    CACHE_TTL = 300 ∧
    get_issue_details loader server issue_key now1 st
      = get_issue_details_cached loader server issue_key (now1 / CACHE_TTL) st ∧
    (get_issue_details loader server issue_key now2
      (get_issue_details loader server issue_key now1 st).2).2.calls = st.calls + 2 := by
  refine ⟨rfl, rfl, ?_⟩
  have hne : (issue_key, now2 / CACHE_TTL) ≠ (issue_key, now1 / CACHE_TTL) := by
    intro hcontra
    exact hdiff (congrArg Prod.snd hcontra).symm
  cases hl1 : loader st.calls with
  | found iss =>
    have h2 := cacheLookup_insert_of_ne st.entries (issue_key, now1 / CACHE_TTL)
      (issue_key, now2 / CACHE_TTL) (some (buildSummary server issue_key iss)) hne hmiss2
    cases hl2 : loader (st.calls + 1) <;>
      simp [get_issue_details, get_issue_details_cached, hmiss1, hl1, h2, hl2]
  | notFound =>
    have h2 := cacheLookup_insert_of_ne st.entries (issue_key, now1 / CACHE_TTL)
      (issue_key, now2 / CACHE_TTL) none hne hmiss2
    cases hl2 : loader (st.calls + 1) <;>
      simp [get_issue_details, get_issue_details_cached, hmiss1, hl1, h2, hl2]
  | jiraError m =>
    cases hl2 : loader (st.calls + 1) <;>
      simp [get_issue_details, get_issue_details_cached, hmiss1, hl1, hmiss2, hl2]
  | otherError m =>
    cases hl2 : loader (st.calls + 1) <;>
      simp [get_issue_details, get_issue_details_cached, hmiss1, hl1, hmiss2, hl2]

/-- C4 witness: two lookups at times 0 and 300 on an empty cache fall in
windows 0 and 1 and run the loader twice. -/
theorem window_refresh_invokes_loader_witness :
    cacheLookup emptyCache.entries ("PROJ-77", 0 / CACHE_TTL) = none ∧
    cacheLookup emptyCache.entries ("PROJ-77", 300 / CACHE_TTL) = none ∧
    (0 : Nat) / CACHE_TTL ≠ 300 / CACHE_TTL ∧
    (CACHE_TTL = 300 ∧
      get_issue_details loaderAB "https://jira" "PROJ-77" 0 emptyCache
        = get_issue_details_cached loaderAB "https://jira" "PROJ-77" (0 / CACHE_TTL) emptyCache ∧
      (get_issue_details loaderAB "https://jira" "PROJ-77" 300
        (get_issue_details loaderAB "https://jira" "PROJ-77" 0 emptyCache).2).2.calls
        = emptyCache.calls + 2) :=
  ⟨rfl, rfl, by decide,
    window_refresh_invokes_loader loaderAB "https://jira" "PROJ-77" 0 300 emptyCache rfl rfl
      (by decide)⟩

end CursorMCP
namespace CursorMCP

/-- C5 counterexample: the branch `AB-٣-CD-5` (with U+0663, an Arabic-Indic
decimal digit) contains exactly one substring matching the claim's literal
pattern `[A-Z]{2,}-[0-9]+`, namely `CD-5`; yet the extractor returns
`AB-٣`, which does not match that pattern — because the source's `\d`
accepts any Unicode decimal digit, refuting the claim as stated. -/
theorem extract_ascii_digit_counterexample :
    matchesKey09 "CD-5".toList = true ∧
    "CD-5".toList <:+: "AB-٣-CD-5".toList ∧
    extract_jira_key_from_branch "AB-٣-CD-5" = some "AB-٣" ∧
    matchesKey09 "AB-٣".toList = false := by
  decide

/-- C5 (amended): for every branch name containing at least one substring
matching `[A-Z]{2,}-\d+` — with `\d` any Unicode decimal digit (category
Nd), as CPython reads it — `extract_jira_key_from_branch` returns a key
matching that pattern which occurs at some position `i` of the branch such
that no substring matching the pattern starts at any earlier position (the
first, leftmost such substring); for every branch name containing no such
substring (including ones where only lowercase-lettered candidates occur),
it returns `none`. -/
theorem extract_returns_first_key (b : String) :
    (∀ k : String, extract_jira_key_from_branch b = some k →
      matchesKeyNd k.toList = true ∧
      (∃ i, k.toList <+: b.toList.drop i ∧
        ∀ j, j < i → ∀ k2 : List Char, matchesKeyNd k2 = true → ¬ k2 <+: b.toList.drop j)) ∧
    (extract_jira_key_from_branch b = none ↔
      ∀ k2 : List Char, matchesKeyNd k2 = true → ¬ k2 <:+: b.toList) := by
  constructor
  · intro k hk
    rw [extract_eq_some] at hk
    obtain ⟨i, h1, h2⟩ := searchKey_some_decomp _ _ hk
    refine ⟨matchAt_matchesKeyNd _ _ h1, i, matchAt_isPre _ _ h1, ?_⟩
    intro j hj k2 hk2 hpre
    obtain ⟨m, hm⟩ := matchAt_of_pre _ k2 hk2 hpre
    rw [h2 j hj] at hm
    exact Option.noConfusion hm
  · constructor
    · intro hnone k2 hk2 hinf
      rw [extract_eq_none] at hnone
      obtain ⟨t, u, hs⟩ := hinf
      have hpre : k2 <+: b.toList.drop t.length := by
        have hd := List.drop_left t (k2 ++ u)
        rw [show t ++ (k2 ++ u) = b.toList by rw [← List.append_assoc, hs]] at hd
        exact ⟨u, hd.symm ▸ rfl⟩
      obtain ⟨m, hm⟩ := matchAt_of_pre _ k2 hk2 hpre
      rw [searchKey_none_matchAt _ hnone t.length] at hm
      exact Option.noConfusion hm
    · intro hno
      rw [extract_eq_none]
      cases hs : searchKey b.toList with
      | none => rfl
      | some kl =>
        obtain ⟨i, h1, h2⟩ := searchKey_some_decomp _ _ hs
        have hinf1 : kl <:+: b.toList.drop i := List.IsPrefix.isInfix (matchAt_isPre _ _ h1)
        have hinf2 : b.toList.drop i <:+: b.toList := List.IsSuffix.isInfix (List.drop_suffix i b.toList)
        exact absurd (List.IsInfix.trans hinf1 hinf2) (hno kl (matchAt_matchesKeyNd _ _ h1))

/-- C5 witness: at the concrete branch `feature/ABC-123-desc` the extractor
returns `ABC-123`, which matches the pattern and is leftmost; and `main`
yields no key. -/
theorem extract_returns_first_key_witness :
    (matchesKeyNd "ABC-123".toList = true ∧
      (∃ i, "ABC-123".toList <+: "feature/ABC-123-desc".toList.drop i ∧
        ∀ j, j < i → ∀ k2 : List Char, matchesKeyNd k2 = true →
          ¬ k2 <+: "feature/ABC-123-desc".toList.drop j)) ∧
    (∀ k2 : List Char, matchesKeyNd k2 = true → ¬ k2 <:+: "main".toList) :=
  ⟨(extract_returns_first_key "feature/ABC-123-desc").1 "ABC-123" (by decide),
   (extract_returns_first_key "main").2.mp (by decide)⟩

/-- C10 counterexample: on the branch `AB-٣` the extractor returns the
key `AB-٣`, which does not match the claim's literal pattern
`[A-Z]{2,}-[0-9]+` (U+0663 is a Unicode decimal digit accepted by the
source's `\d` but not an ASCII digit), refuting the claim that every
returned key matches `[A-Z]{2,}-[0-9]+`. -/
theorem extract_key_not_ascii_counterexample :
    extract_jira_key_from_branch "AB-٣" = some "AB-٣" ∧
    matchesKey09 "AB-٣".toList = false := by
  decide

/-- C10 (amended): whenever the extractor returns a key `k` from a branch
`b`, `k` matches `[A-Z]{2,}-\d+` — with `\d` any Unicode decimal digit
(category Nd), as CPython reads it — `k` is a contiguous substring of `b`,
and the extractor applied to `k` itself returns `k`: it is a fixed point
on its own outputs. -/
theorem extract_fixed_point (b k : String) (h : extract_jira_key_from_branch b = some k) :
    matchesKeyNd k.toList = true ∧ k.toList <:+: b.toList ∧
      extract_jira_key_from_branch k = some k := by
  rw [extract_eq_some] at h
  obtain ⟨i, h1, h2⟩ := searchKey_some_decomp _ _ h
  have hmk : matchesKeyNd k.toList = true := matchAt_matchesKeyNd _ _ h1
  have hinf1 : k.toList <:+: b.toList.drop i := List.IsPrefix.isInfix (matchAt_isPre _ _ h1)
  have hinf2 : b.toList.drop i <:+: b.toList := List.IsSuffix.isInfix (List.drop_suffix i b.toList)
  refine ⟨hmk, List.IsInfix.trans hinf1 hinf2, ?_⟩
  rw [extract_eq_some]
  have hne : k.toList ≠ [] := by
    intro hnil
    rw [hnil] at hmk
    exact absurd hmk (by decide)
  exact searchKey_of_matchAt_self _ (matchAt_self _ hmk) hne

/-- C10 witness: concrete instance at branch `release/sprint-10/ABC-42`. -/
theorem extract_fixed_point_witness :
    matchesKeyNd "ABC-42".toList = true ∧ "ABC-42".toList <:+: "release/sprint-10/ABC-42".toList ∧
      extract_jira_key_from_branch "ABC-42" = some "ABC-42" :=
  extract_fixed_point "release/sprint-10/ABC-42" "ABC-42" (by decide)

/-- C9: the summary built from a successfully fetched issue applies the
stated defaults for absent optional fields: placeholder description
"No description provided", priority "Not set", assignee "Unassigned",
and empty component and label sequences.  `buildSummary` is the field
extraction of the success path of `get_issue_details_cached`. -/
theorem issue_defaults_applied (server issue_key : String) (iss : RawIssue) :
    (iss.description = none →
      (buildSummary server issue_key iss).description = "No description provided") ∧
    (iss.priority = none → (buildSummary server issue_key iss).priority = "Not set") ∧
    (iss.assigneeDisplayName = none →
      (buildSummary server issue_key iss).assignee = "Unassigned") ∧
    (iss.components = none → (buildSummary server issue_key iss).components = []) ∧
    (iss.labels = none → (buildSummary server issue_key iss).labels = []) := by
  refine ⟨?_, ?_, ?_, ?_, ?_⟩ <;> intro h <;> simp [buildSummary, h]

/-- C9 witness: the defaults on a concrete issue with every optional
field absent. -/
theorem issue_defaults_applied_witness :
    issueBare.description = none ∧ issueBare.priority = none ∧
    issueBare.assigneeDisplayName = none ∧ issueBare.components = none ∧
    issueBare.labels = none ∧
    (buildSummary "https://jira" "PROJ-77" issueBare).description = "No description provided" ∧
    (buildSummary "https://jira" "PROJ-77" issueBare).priority = "Not set" ∧
    (buildSummary "https://jira" "PROJ-77" issueBare).assignee = "Unassigned" ∧
    (buildSummary "https://jira" "PROJ-77" issueBare).components = [] ∧
    (buildSummary "https://jira" "PROJ-77" issueBare).labels = [] :=
  ⟨rfl, rfl, rfl, rfl, rfl,
    (issue_defaults_applied "https://jira" "PROJ-77" issueBare).1 rfl,
    (issue_defaults_applied "https://jira" "PROJ-77" issueBare).2.1 rfl,
    (issue_defaults_applied "https://jira" "PROJ-77" issueBare).2.2.1 rfl,
    (issue_defaults_applied "https://jira" "PROJ-77" issueBare).2.2.2.1 rfl,
    (issue_defaults_applied "https://jira" "PROJ-77" issueBare).2.2.2.2 rfl⟩

/-- C7: the POST /context handler degrades gracefully and always returns
normally with a context list: with no branch, an empty branch, a branch
yielding no key, a lookup reporting not-found, or a lookup raising
`JiraClientError`, the assembled context is the empty list (and `get_context`
is a total function, so no hard failure escapes in any of these cases). -/
theorem get_context_graceful (loader : Nat → FetchOutcome) (server : String) (now : Nat)
    (st : CacheState) (b : String) :
    (get_context loader server now st none).1 = [] ∧
    (get_context loader server now st (some "")).1 = [] ∧
    (extract_jira_key_from_branch b = none →
      (get_context loader server now st (some b)).1 = []) ∧
    (∀ k, extract_jira_key_from_branch b = some k →
      (get_issue_details loader server k now st).1 = Except.ok none →
      (get_context loader server now st (some b)).1 = []) ∧
    (∀ k m, extract_jira_key_from_branch b = some k →
      (get_issue_details loader server k now st).1 = Except.error m →
      (get_context loader server now st (some b)).1 = []) := by
  have hempty : ∀ k : String, extract_jira_key_from_branch b = some k → ¬ b = "" := by
    intro k hext hb
    rw [hb] at hext
    exact Option.noConfusion (show (none : Option String) = some k from hext)
  refine ⟨rfl, by simp [get_context], ?_, ?_, ?_⟩
  · intro hext
    by_cases hb : b = ""
    · simp [get_context, hb]
    · simp [get_context, hb, hext]
  · intro k hext hlook
    simp only [get_context, if_neg (hempty k hext), hext]
    rcases hgd : get_issue_details loader server k now st with ⟨r, st2⟩
    rw [hgd] at hlook
    have hr : r = Except.ok none := hlook
    rw [hr]
  · intro k m hext hlook
    simp only [get_context, if_neg (hempty k hext), hext]
    rcases hgd : get_issue_details loader server k now st with ⟨r, st2⟩
    rw [hgd] at hlook
    have hr : r = Except.error m := hlook
    rw [hr]

/-- C7 witness: concrete instances of all five degradation cases. -/
theorem get_context_graceful_witness :
    (get_context loaderNF "https://jira" 0 emptyCache none).1 = [] ∧
    (get_context loaderNF "https://jira" 0 emptyCache (some "")).1 = [] ∧
    ((get_context loaderNF "https://jira" 0 emptyCache (some "chore/update-deps")).1 = []) ∧
    ((get_context loaderNF "https://jira" 0 emptyCache (some "feature/XYZ-1-login")).1 = []) ∧
    ((get_context loaderFail1 "https://jira" 0 emptyCache (some "feature/XYZ-1-login")).1 = []) :=
  ⟨(get_context_graceful loaderNF "https://jira" 0 emptyCache "x").1,
   (get_context_graceful loaderNF "https://jira" 0 emptyCache "x").2.1,
   (get_context_graceful loaderNF "https://jira" 0 emptyCache "chore/update-deps").2.2.1
     (by decide),
   (get_context_graceful loaderNF "https://jira" 0 emptyCache "feature/XYZ-1-login").2.2.2.1
     "XYZ-1" (by decide) rfl,
   (get_context_graceful loaderFail1 "https://jira" 0 emptyCache "feature/XYZ-1-login").2.2.2.2
     "XYZ-1" ("JIRA API error: " ++ "503") (by decide) rfl⟩

/-- C8 counterexample: at branch `feature/PROJ-77-login` with a gateway
returning a summary, the handler produces exactly one context item, but
the item's metadata does not contain an `issuetype` field — refuting the
claim that the metadata contains issue_key, status, priority, assignee,
url and issuetype. -/
theorem context_item_no_issuetype :
    ((get_context loaderAB "https://jira" 0 emptyCache (some "feature/PROJ-77-login")).1.map
      (fun it => decide ("issuetype" ∈ it.metadata.map Prod.fst))) = [false] := by
  decide

/-- C8 (amended): when the branch yields a key and the lookup returns a
summary, the context is exactly one item of type "jira_issue" whose title
is the key followed by ": " and the issue's summary, whose content is the
description, and whose metadata contains the fields issue_key, status,
priority, assignee and url (the handler includes no issuetype field). -/
theorem context_item_shape (loader : Nat → FetchOutcome) (server : String) (now : Nat)
    (st : CacheState) (b k : String) (d : IssueSummary) (st2 : CacheState)
    (hext : extract_jira_key_from_branch b = some k)
    (hlook : get_issue_details loader server k now st = (Except.ok (some d), st2)) :
    (get_context loader server now st (some b)).1 =
      [{ type := "jira_issue", title := k ++ ": " ++ d.summary, content := d.description,
         metadata := [("issue_key", k), ("status", d.status), ("priority", d.priority),
                      ("assignee", d.assignee), ("url", d.url)] }] := by
  have hb : ¬ b = "" := by
    intro hb
    rw [hb] at hext
    exact Option.noConfusion (show (none : Option String) = some k from hext)
  simp only [get_context, if_neg hb, hext, hlook]
  rfl

/-- C8 witness: the end-to-end scenario of the spec — branch
`feature/PROJ-77-login`, gateway returns summary "Fix login" — yields
exactly one item titled "PROJ-77: Fix login". -/
theorem context_item_shape_witness :
    (get_context loaderAB "https://jira" 0 emptyCache (some "feature/PROJ-77-login")).1 =
      [{ type := "jira_issue", title := "PROJ-77: Fix login", content := "Users cannot log in",
         metadata := [("issue_key", "PROJ-77"), ("status", "Open"), ("priority", "High"),
                      ("assignee", "Dana"), ("url", "https://jira/browse/PROJ-77")] }] := by
  have h := context_item_shape loaderAB "https://jira" 0 emptyCache "feature/PROJ-77-login"
    "PROJ-77" (buildSummary "https://jira" "PROJ-77" issueA)
    ⟨[(("PROJ-77", 0), some (buildSummary "https://jira" "PROJ-77" issueA))], 1⟩
    (by decide) rfl
  rw [h]
  rfl

end CursorMCP
